import Mathlib

/-
  Verification development for the "AI Article Summarizer" browser extension
  (source files: background.js, content.js, storage.js, popup.js).

  The JavaScript source is shallowly embedded: strings are Lean strings
  (lists of characters), the asynchronous storage/network calls are made
  explicit by passing their outcomes as parameters, and each handler is a
  pure function from its inputs to its result together with the list of
  effectful steps it performs, in order.
-/

namespace Summarizer

/-- Models the JavaScript regular-expression class backslash-s: space, tab,
newline, vertical tab, form feed, carriage return, NBSP, the Unicode space
separators, the line and paragraph separators, and the BOM. -/
def jsWhitespace (c : Char) : Bool :=
  c.toNat = 0x20 || (0x9 ≤ c.toNat && c.toNat ≤ 0xd) || c.toNat = 0xa0 ||
  c.toNat = 0x1680 || (0x2000 ≤ c.toNat && c.toNat ≤ 0x200a) ||
  c.toNat = 0x2028 || c.toNat = 0x2029 || c.toNat = 0x202f ||
  c.toNat = 0x205f || c.toNat = 0x3000 || c.toNat = 0xfeff

/-- Helper for `collapseRuns`: the boolean records whether the previous
character belonged to a whitespace run that has already emitted its
single replacement space. -/
def collapseAux : Bool → List Char → List Char
  | _, [] => []
  | prevWS, c :: rest =>
    if jsWhitespace c then
      if prevWS then collapseAux true rest
      else ' ' :: collapseAux true rest
    else c :: collapseAux false rest

/-- Models content.js `text.replace(/\s+/g, ' ')`: every maximal run of
whitespace characters is replaced by a single space. -/
def collapseRuns (l : List Char) : List Char := collapseAux false l

/-- Models the JavaScript `String.prototype.trim`: leading and trailing
whitespace characters are removed. -/
def jsTrim (l : List Char) : List Char :=
  ((l.dropWhile jsWhitespace).reverse.dropWhile jsWhitespace).reverse

/-- Models the whitespace clean-up in content.js `extractArticleContent`:
`text.replace(/\s+/g, ' ').replace(/\n\s*\n/g, '\n').trim()`.  The second
replace is a no-op because the first replace leaves no newline in the
string (see `newline_not_mem_collapseRuns`), so it is omitted here. -/
def cleanWhitespace (s : String) : String :=
  String.mk (jsTrim (collapseRuns s.data))

/-- Models the JavaScript `String.prototype.trim` on Lean strings. -/
def jsTrimStr (s : String) : String := String.mk (jsTrim s.data)

/-- Models the JavaScript idiom `a || b` on strings: the empty string is
falsy, so it falls through to the default. -/
def jsOr (o : Option String) (d : String) : String :=
  match o with
  | some s => if s = "" then d else s
  | none => d

lemma string_length_mk (l : List Char) : (String.mk l).length = l.length := rfl

lemma string_data_mk (l : List Char) : (String.mk l).data = l := rfl

lemma mem_collapseAux {c : Char} {l : List Char} :
    ∀ b : Bool, c ∈ collapseAux b l → c = ' ' ∨ jsWhitespace c = false := by
  induction l with
  | nil => intro b h; simp [collapseAux] at h
  | cons d rest ih =>
    intro b h
    unfold collapseAux at h
    by_cases hd : jsWhitespace d
    · simp [hd] at h
      cases b with
      | true => simpa using ih true (by simpa using h)
      | false =>
        simp at h
        rcases h with h | h
        · exact Or.inl h
        · exact ih true h
    · simp [hd] at h
      rcases h with h | h
      · subst h; exact Or.inr (by simpa using hd)
      · exact ih false h

/-- After collapsing whitespace runs to single spaces, no newline remains;
this is why the second replace in content.js (`/\n\s*\n/g` to a newline)
never matches and is omitted from `cleanWhitespace`. -/
lemma newline_not_mem_collapseRuns (l : List Char) :
    Char.ofNat 10 ∉ collapseRuns l := by
  intro h
  rcases mem_collapseAux false h with h1 | h1
  · exact absurd h1 (by decide)
  · exact absurd h1 (by decide)

namespace ContentScript

/-- Truncation bound from content.js. -/
def MAX_CONTENT_LENGTH : Nat := 10000

/-- Result record of content.js `extractArticleContent`. -/
structure ExtractedContent where
  title : String
  text : String
  url : String
  success : Bool
  error : Option String
deriving DecidableEq

/-- Models content.js `extractArticleContent` from the point where the raw
text has been read out of the cloned, filtered container: clean
whitespace, fail when under 50 characters, truncate to
`MAX_CONTENT_LENGTH` characters otherwise.  The DOM query part (title and
container selection) is abstracted as the `title`, `url` and `rawText`
inputs. -/
def extractArticleContent (title url rawText : String) : ExtractedContent :=
  let text := cleanWhitespace rawText
  if text = "" ∨ text.length < 50 then
    ⟨title, "", url, false, some "No content found to summarize"⟩
  else if text.length > MAX_CONTENT_LENGTH then
    ⟨title, String.mk (text.data.take MAX_CONTENT_LENGTH), url, true, none⟩
  else
    ⟨title, text, url, true, none⟩

end ContentScript

namespace Background

/-- Endpoint table from background.js `API_ENDPOINTS`. -/
def API_ENDPOINTS (provider : String) : Option String :=
  if provider = "openai" then some "https://api.openai.com/v1/chat/completions"
  else if provider = "openrouter" then some "https://openrouter.ai/api/v1/chat/completions"
  else none

/-- Model table from background.js `DEFAULT_MODELS`. -/
def DEFAULT_MODELS (provider : String) : Option String :=
  if provider = "openai" then some "gpt-3.5-turbo"
  else if provider = "openrouter" then some "openai/gpt-3.5-turbo"
  else none

def MAX_TOKENS : Nat := 300

def REQUEST_TIMEOUT : Nat := 30000

def SYSTEM_PROMPT : String :=
  "Summarize the following article in 3-5 concise sentences. Focus on the main points and key takeaways."

/-- Input record of background.js `generateSummary`. -/
structure Content where
  title : String
  text : String
  url : String

/-- Models `content.title.replace(/[^\x00-\x7F]/g, '')`: every character
with code point above 0x7F is removed, the rest are kept in order. -/
def sanitizedTitle (content : Content) : String :=
  String.mk (content.title.data.filter (fun ch => ch.toNat ≤ 0x7F))

/-- Models the user-message composition in background.js `generateSummary`. -/
def userMessage (content : Content) : String :=
  "Title: " ++ sanitizedTitle content ++ "\n\nContent:\n" ++ content.text

/-- Models `API_ENDPOINTS[provider] || API_ENDPOINTS.openai`. -/
def apiUrl (provider : String) : String :=
  (API_ENDPOINTS provider).getD "https://api.openai.com/v1/chat/completions"

/-- Models `DEFAULT_MODELS[provider] || DEFAULT_MODELS.openai`. -/
def modelName (provider : String) : String :=
  (DEFAULT_MODELS provider).getD "gpt-3.5-turbo"

/-- Models the header assembly in background.js `generateSummary`: the two
fixed headers, plus two identification headers added only for the
openrouter provider. -/
def requestHeaders (apiKey provider : String) : List (String × String) :=
  [("Content-Type", "application/json"), ("Authorization", "Bearer " ++ apiKey)] ++
  (if provider = "openrouter" then
    [("HTTP-Referer", "https://github.com/ai-article-summarizer"),
     ("X-Title", "AI-Article-Summarizer")]
  else [])

/-- Result record `{ summary, success, error? }` of background.js. -/
structure SummaryResult where
  summary : String
  success : Bool
  error : Option String
deriving DecidableEq

def contentFaultMsg : String := "Could not generate summary. Please try again."

def timeoutMsg : String := "Request timed out. Please try again."

def networkErrorMsg (m : String) : String :=
  "Network error: " ++ m ++ ". Please reload the extension and try again."

def invalidKeyMsg : String := "Invalid API key. Please check your settings."

def rateLimitedMsg : String := "Rate limited. Please try again in a moment."

def serviceUnavailableMsg : String :=
  "OpenAI service is temporarily unavailable. Please try again."

def genericErrorMsg : String := "An error occurred. Please try again."

def notConfiguredMsg : String :=
  "API key not configured. Please add your API key in settings."

def noTextSelectedMsg : String :=
  "No text selected. Please select some text on the page first."

def noActiveTabMsg : String := "No active tab found."

def extractFallbackMsg : String := "Failed to extract content from page."

/-- Models the parsed error body: the field `errorMessage` stands for the
optional chain `errorData.error?.message` (none when the body could not be
parsed or has no such field). -/
structure ErrorData where
  errorMessage : Option String
deriving DecidableEq

/-- Models background.js `handleApiError` line by line; the default branch
`errorData.error?.message || genericErrorMsg` uses the JS falsy check, so
an empty provider message also falls back to the generic message. -/
def handleApiError (status : Nat) (errorData : ErrorData) : SummaryResult :=
  let errorMessage :=
    if status = 401 then invalidKeyMsg
    else if status = 429 then rateLimitedMsg
    else if status = 500 ∨ status = 502 ∨ status = 503 then serviceUnavailableMsg
    else jsOr errorData.errorMessage genericErrorMsg
  ⟨"", false, some errorMessage⟩

/-- Completion-body message object; `content` is optional because the JSON
field may be absent. -/
structure ApiMessage where
  content : Option String
deriving DecidableEq

/-- Completion-body choice object; `message` is optional. -/
structure ApiChoice where
  message : Option ApiMessage
deriving DecidableEq

/-- Completion response body; `choices` is optional and may be an empty
array. -/
structure ApiBody where
  choices : Option (List ApiChoice)
deriving DecidableEq

/-- The JavaScript access `data.choices[0]`. -/
def firstChoice (b : ApiBody) : Option ApiChoice := b.choices.bind List.head?

/-- The JavaScript access `data.choices[0].message`; none when `choices`
is absent, empty, or the first choice has no `message` field. -/
def messageOf (b : ApiBody) : Option ApiMessage :=
  (firstChoice b).bind ApiChoice.message

/-- The JavaScript access `data.choices[0].message.content` as an optional
value. -/
def contentOf (b : ApiBody) : Option String :=
  (messageOf b).bind ApiMessage.content

/-- Outcome of the `fetch` call in background.js `generateSummary`:
a parsed 2xx body, a non-ok status with parsed error data, an abort
triggered by the 30 second timer, or a transport-level failure with the
thrown message. -/
inductive FetchOutcome where
  | ok (body : ApiBody)
  | httpError (status : Nat) (errorData : ErrorData)
  | abortTimeout
  | networkFailure (msg : String)
deriving DecidableEq

/-- Models background.js `generateSummary` lines 129 to 152, handling a
parsed 2xx body.  The parameter `tyErrMsg` is the engine-specific message
of the TypeError thrown by `data.choices[0].message.content.trim()` when
`content` is absent: the source checks `data.choices`, `data.choices[0]`
and `data.choices[0].message` for presence but not `content`, so that
dereference throws, the surrounding try/catch catches it (its name is not
AbortError), and the catch-all network-error branch returns. -/
def handleCompletionBody (data : ApiBody) (tyErrMsg : String) : SummaryResult :=
  match messageOf data with
  | none => ⟨"", false, some contentFaultMsg⟩
  | some msg =>
    match msg.content with
    | none => ⟨"", false, some (networkErrorMsg tyErrMsg)⟩
    | some c =>
      let summary := jsTrimStr c
      if summary = "" then ⟨"", false, some contentFaultMsg⟩
      else ⟨summary, true, none⟩

/-- Models the try block of background.js `generateSummary` around the
`fetch` call: a non-ok status goes to `handleApiError`, an abort from the
30 second timer yields the timeout message, any other thrown error yields
the catch-all network-error message, and a 2xx body is handled by
`handleCompletionBody`. -/
def generateSummary (content : Content) (fetch : FetchOutcome) (tyErrMsg : String) :
    SummaryResult :=
  match fetch with
  | .httpError status errorData => handleApiError status errorData
  | .abortTimeout => ⟨"", false, some timeoutMsg⟩
  | .networkFailure m => ⟨"", false, some (networkErrorMsg m)⟩
  | .ok data => handleCompletionBody data tyErrMsg

/-- The synced configuration record; both fields may be unset. -/
structure Config where
  apiKey : Option String
  apiProvider : Option String

/-- Models background.js `getApiKey`: `result.apiKey || null` followed by
the falsy check `if (!apiKey)`, so an empty stored key counts as absent. -/
def getApiKeyVal (c : Config) : Option String :=
  match c.apiKey with
  | some k => if k = "" then none else some k
  | none => none

/-- Models background.js `getApiProvider`: `result.apiProvider || 'openai'`. -/
def getApiProviderVal (c : Config) : String :=
  match c.apiProvider with
  | some p => if p = "" then "openai" else p
  | none => "openai"

/-- Effectful steps a request handler performs, in order. -/
inductive Step where
  | readConfig
  | readSelection
  | extractContent
  | networkCall
deriving DecidableEq

/-- Result shape of background.js `handleSummarizeRequest` and of the
SUMMARY_RESULT payloads: `{ summary, title, url, success, error? }`. -/
structure PageResult where
  summary : String
  title : String
  url : String
  success : Bool
  error : Option String
deriving DecidableEq

/-- Models `tab.title || 'Selected Text'`. -/
def pageTitleOf (tabTitle : Option String) : String :=
  jsOr tabTitle "Selected Text"

/-- Models background.js `handleSummarizeRequest`: read configuration,
fail when the key is missing, otherwise extract content from the tab,
propagate an extraction failure, otherwise call `generateSummary`.
The extraction result and the fetch outcome are passed as parameters;
the returned list records which effectful steps ran, in order. -/
def handleSummarizeRequest (cfg : Config) (extracted : ContentScript.ExtractedContent)
    (fetch : FetchOutcome) (tyErrMsg : String) : PageResult × List Step :=
  match getApiKeyVal cfg with
  | none => (⟨"", "", "", false, some notConfiguredMsg⟩, [Step.readConfig])
  | some _ =>
    if extracted.success then
      let r := generateSummary ⟨extracted.title, extracted.text, extracted.url⟩ fetch tyErrMsg
      (⟨r.summary, extracted.title, extracted.url, r.success, r.error⟩,
       [Step.readConfig, Step.extractContent, Step.networkCall])
    else
      (⟨"", extracted.title, extracted.url, false,
        some (jsOr extracted.error extractFallbackMsg)⟩,
       [Step.readConfig, Step.extractContent])

/-- Models background.js `summarizeSelectedText`: read configuration, fail
when the key is missing, otherwise build the content record from the tab
title and the selection capped at 10000 characters and call
`generateSummary`. -/
def summarizeSelectedText (cfg : Config) (selectedText : String)
    (tabTitle : Option String) (fetch : FetchOutcome) (tyErrMsg : String) :
    SummaryResult × List Step :=
  match getApiKeyVal cfg with
  | none => (⟨"", false, some notConfiguredMsg⟩, [Step.readConfig])
  | some _ =>
    let content : Content := ⟨pageTitleOf tabTitle, String.mk (selectedText.data.take 10000), ""⟩
    (generateSummary content fetch tyErrMsg, [Step.readConfig, Step.networkCall])

/-- Models the SUMMARIZE_SELECTION branch of the background.js message
listener, after the active tab has been found: the selection is read from
the page first; an empty or whitespace-only selection is reported at once,
and only otherwise does `summarizeSelectedText` run (which performs the
configuration check). -/
def selectionFlow (cfg : Config) (selectedText : String) (tabTitle : Option String)
    (tabUrl : String) (fetch : FetchOutcome) (tyErrMsg : String) :
    PageResult × List Step :=
  if jsTrimStr selectedText = "" then
    (⟨"", "", "", false, some noTextSelectedMsg⟩, [Step.readSelection])
  else
    let r := summarizeSelectedText cfg selectedText tabTitle fetch tyErrMsg
    (⟨r.1.summary, pageTitleOf tabTitle, tabUrl, r.1.success, r.1.error⟩,
     Step.readSelection :: r.2)

/-- The payload sent when no active tab exists. -/
def noActiveTabResult : PageResult := ⟨"", "", "", false, some noActiveTabMsg⟩

/-- The payload sent when reading the selection throws with message `m`. -/
def selectionFailedResult (m : String) : PageResult :=
  ⟨"", "", "", false, some ("Failed to get selection: " ++ m)⟩

/-- The spec invariant on result triples: success results carry a
non-empty summary and no error, failure results carry an error and an
empty summary. -/
def resultOk (summary : String) (success : Bool) (error : Option String) : Prop :=
  (success = true ∧ error = none ∧ summary ≠ "") ∨
  (success = false ∧ error.isSome = true ∧ summary = "")

end Background

namespace Storage

/-- Persisted record from storage.js `saveSummary`. -/
structure SavedSummary where
  id : String
  url : String
  title : String
  summary : String
  savedAt : Nat
deriving DecidableEq

/-- Models the list update inside storage.js `saveSummary` (identical code
in popup.js `saveCurrentSummary`): unshift the new entry, then slice to
the first 100 entries when the length exceeds 100. -/
def saveSummary (e : SavedSummary) (l : List SavedSummary) : List SavedSummary :=
  let summaries := e :: l
  if summaries.length > 100 then summaries.take 100 else summaries

/-- Saves the entries of `es` one after the other, oldest first. -/
def saveAll (es : List SavedSummary) (l : List SavedSummary) : List SavedSummary :=
  es.foldl (fun acc e => saveSummary e acc) l

/-- Models the list update inside storage.js `deleteSummary` (identical
code in popup.js `deleteCurrentSummary`): keep every entry whose id
differs. -/
def deleteSummary (id : String) (l : List SavedSummary) : List SavedSummary :=
  l.filter (fun s => s.id != id)

end Storage

/-
  Theorems.
-/

namespace Storage

lemma take_append_take {α : Type} (a b : List α) (n : Nat) :
    (a ++ b.take n).take n = (a ++ b).take n := by
  rw [List.take_append_eq_append_take, List.take_append_eq_append_take, List.take_take]
  congr 1
  congr 1
  omega

lemma saveSummary_eq_take (e : SavedSummary) (l : List SavedSummary)
    (h : l.length ≤ 100) : saveSummary e l = (e :: l).take 100 := by
  unfold saveSummary
  by_cases h1 : (e :: l).length > 100
  · simp [h1]
  · rw [if_neg h1]
    exact (List.take_of_length_le (by omega)).symm

lemma saveSummary_length_le (e : SavedSummary) (l : List SavedSummary)
    (h : l.length ≤ 100) : (saveSummary e l).length ≤ 100 := by
  rw [saveSummary_eq_take e l h, List.length_take]
  omega

lemma saveAll_eq_take (es : List SavedSummary) :
    ∀ l : List SavedSummary, l.length ≤ 100 →
      saveAll es l = (es.reverse ++ l).take 100 := by
  induction es with
  | nil =>
    intro l h
    simpa [saveAll] using (List.take_of_length_le h).symm
  | cons e es ih =>
    intro l h
    have step : saveAll (e :: es) l = saveAll es (saveSummary e l) := rfl
    rw [step, ih (saveSummary e l) (saveSummary_length_le e l h),
        saveSummary_eq_take e l h, take_append_take]
    simp

/-- C4: starting from any list of at most 100 saved summaries, a save
prepends the new entry and truncates to the first 100 entries; saving the
entries of `es` (oldest first) therefore keeps the length at or below
100, and when more than 100 entries were saved the stored list is exactly
the 100 most recently saved entries, newest first
(`es.reverse.take 100`). -/
theorem claim_C4_capacity (l es : List SavedSummary) (hl : l.length ≤ 100) :
    (∀ e, saveSummary e l = (e :: l).take 100) ∧
    (saveAll es l).length ≤ 100 ∧
    (100 < es.length →
      saveAll es l = es.reverse.take 100 ∧ (saveAll es l).length = 100) := by
  refine ⟨fun e => saveSummary_eq_take e l hl, ?_, ?_⟩
  · rw [saveAll_eq_take es l hl, List.length_take]
    omega
  · intro hN
    have hrev : 100 ≤ es.reverse.length := by
      rw [List.length_reverse]; omega
    constructor
    · rw [saveAll_eq_take es l hl, List.take_append_eq_append_take,
          Nat.sub_eq_zero_of_le hrev]
      simp
    · rw [saveAll_eq_take es l hl, List.length_take, List.length_append,
          List.length_reverse]
      omega

/-- Witness for C4 at a concrete input: 101 saves into an empty list leave
at most 100 entries, and exactly the 100 most recent ones. -/
theorem claim_C4_capacity_witness :
    (saveAll (List.replicate 101 ⟨"i", "u", "t", "s", 0⟩) []).length ≤ 100 ∧
    saveAll (List.replicate 101 ⟨"i", "u", "t", "s", 0⟩) [] =
      (List.replicate 101 (⟨"i", "u", "t", "s", 0⟩ : SavedSummary)).reverse.take 100 := by
  have h := claim_C4_capacity [] (List.replicate 101 ⟨"i", "u", "t", "s", 0⟩) (by simp)
  exact ⟨h.2.1, (h.2.2 (by simp)).1⟩

/-- C7: with unique ids, deleting an id present in the list removes
exactly that entry and keeps the order of the rest; deleting an id that no
entry carries leaves the list unchanged. -/
theorem claim_C7_delete (l : List SavedSummary) (id : String) :
    ((∀ s ∈ l, s.id ≠ id) → deleteSummary id l = l) ∧
    (∀ l1 e l2, l = l1 ++ e :: l2 → e.id = id →
      (l.map SavedSummary.id).Nodup → deleteSummary id l = l1 ++ l2) := by
  constructor
  · intro h
    apply List.filter_eq_self.mpr
    intro s hs
    simpa using h s hs
  · intro l1 e l2 hsplit hid hnodup
    subst hsplit
    have hmap : ((l1 ++ e :: l2).map SavedSummary.id) =
        l1.map SavedSummary.id ++ e.id :: l2.map SavedSummary.id := by simp
    rw [hmap] at hnodup
    rw [List.nodup_append] at hnodup
    obtain ⟨h1, h2, hdisj⟩ := hnodup
    have hl1 : ∀ s ∈ l1, s.id ≠ id := by
      intro s hs hcontra
      exact hdisj (List.mem_map_of_mem SavedSummary.id hs)
        (by rw [hcontra, ← hid]; exact List.mem_cons_self _ _)
    have hl2 : ∀ s ∈ l2, s.id ≠ id := by
      intro s hs hcontra
      have hse : s.id = e.id := by rw [hcontra, hid]
      rw [List.nodup_cons] at h2
      exact h2.1 (hse ▸ List.mem_map_of_mem SavedSummary.id hs)
    unfold deleteSummary
    have hf1 : List.filter (fun s => s.id != id) l1 = l1 :=
      List.filter_eq_self.mpr (fun s hs => by simpa using hl1 s hs)
    have hf2 : List.filter (fun s => s.id != id) l2 = l2 :=
      List.filter_eq_self.mpr (fun s hs => by simpa using hl2 s hs)
    simp [List.filter_append, List.filter_cons, hid, hf1, hf2]

/-- Witness for C7 at concrete inputs: deleting the id "2" from a
three-entry list removes the middle entry; deleting the unknown id "9"
changes nothing. -/
theorem claim_C7_delete_witness :
    deleteSummary "2"
        [⟨"1", "u", "t", "s", 0⟩, ⟨"2", "u", "t", "s", 1⟩, ⟨"3", "u", "t", "s", 2⟩] =
      [⟨"1", "u", "t", "s", 0⟩, ⟨"3", "u", "t", "s", 2⟩] ∧
    deleteSummary "9"
        [⟨"1", "u", "t", "s", 0⟩, ⟨"2", "u", "t", "s", 1⟩, ⟨"3", "u", "t", "s", 2⟩] =
      [⟨"1", "u", "t", "s", 0⟩, ⟨"2", "u", "t", "s", 1⟩, ⟨"3", "u", "t", "s", 2⟩] := by
  constructor
  · exact (claim_C7_delete
      [⟨"1", "u", "t", "s", 0⟩, ⟨"2", "u", "t", "s", 1⟩, ⟨"3", "u", "t", "s", 2⟩] "2").2
      [⟨"1", "u", "t", "s", 0⟩] ⟨"2", "u", "t", "s", 1⟩ [⟨"3", "u", "t", "s", 2⟩]
      rfl rfl (by decide)
  · exact (claim_C7_delete
      [⟨"1", "u", "t", "s", 0⟩, ⟨"2", "u", "t", "s", 1⟩, ⟨"3", "u", "t", "s", 2⟩] "9").1
      (by decide)

end Storage

lemma collapseAux_of_no_ws (l : List Char) (h : ∀ c ∈ l, jsWhitespace c = false) :
    ∀ b : Bool, collapseAux b l = l := by
  induction l with
  | nil => intro b; rfl
  | cons c rest ih =>
    intro b
    have hc := h c (List.mem_cons_self c rest)
    unfold collapseAux
    rw [hc]
    simp only [if_false, Bool.false_eq_true]
    rw [ih (fun x hx => h x (List.mem_cons_of_mem c hx)) false]

lemma dropWhile_of_no_match {α : Type} (p : α → Bool) (l : List α)
    (h : ∀ c ∈ l, p c = false) : l.dropWhile p = l := by
  cases l with
  | nil => rfl
  | cons c rest =>
    rw [List.dropWhile_cons, h c (List.mem_cons_self c rest)]
    simp

lemma jsTrim_of_no_ws (l : List Char) (h : ∀ c ∈ l, jsWhitespace c = false) :
    jsTrim l = l := by
  unfold jsTrim
  rw [dropWhile_of_no_match jsWhitespace l h,
      dropWhile_of_no_match jsWhitespace l.reverse
        (fun c hc => h c (List.mem_reverse.mp hc)),
      List.reverse_reverse]

lemma cleanWhitespace_of_no_ws (l : List Char) (h : ∀ c ∈ l, jsWhitespace c = false) :
    cleanWhitespace (String.mk l) = String.mk l := by
  unfold cleanWhitespace collapseRuns
  rw [string_data_mk, collapseAux_of_no_ws l h false, jsTrim_of_no_ws l h]

lemma replicate_a_no_ws (n : Nat) :
    ∀ c ∈ List.replicate n 'a', jsWhitespace c = false := by
  intro c hc
  rw [List.eq_of_mem_replicate hc]
  decide

namespace ContentScript

/-- C5: whenever the cleaned page text has more than 10000 characters,
extraction succeeds and returns exactly the first 10000 characters of the
cleaned text (a proper initial segment of it); cleaned text of length 50
to 10000 is returned unchanged; and the returned text never has more than
10000 characters. -/
theorem claim_C5_truncation (title url rawText : String) :
    (10000 < (cleanWhitespace rawText).length →
      (extractArticleContent title url rawText).success = true ∧
      (extractArticleContent title url rawText).text.length = 10000 ∧
      (∃ rest, (cleanWhitespace rawText).data =
          (extractArticleContent title url rawText).text.data ++ rest ∧ rest ≠ [])) ∧
    (50 ≤ (cleanWhitespace rawText).length → (cleanWhitespace rawText).length ≤ 10000 →
      (extractArticleContent title url rawText).success = true ∧
      (extractArticleContent title url rawText).text = cleanWhitespace rawText) ∧
    (extractArticleContent title url rawText).text.length ≤ 10000 := by
  unfold extractArticleContent MAX_CONTENT_LENGTH
  refine ⟨?_, ?_, ?_⟩
  · intro h
    have hne : ¬(cleanWhitespace rawText = "" ∨ (cleanWhitespace rawText).length < 50) := by
      rintro (he | hlt)
      · rw [he] at h; simp [String.length] at h
      · omega
    rw [if_neg hne, if_pos (by omega)]
    refine ⟨rfl, ?_, ?_⟩
    · rw [string_length_mk, List.length_take]
      have : (cleanWhitespace rawText).data.length = (cleanWhitespace rawText).length := rfl
      omega
    · refine ⟨(cleanWhitespace rawText).data.drop 10000, ?_, ?_⟩
      · rw [string_data_mk, List.take_append_drop]
      · intro hc
        have hlen := congrArg List.length hc
        rw [List.length_drop] at hlen
        have : (cleanWhitespace rawText).data.length = (cleanWhitespace rawText).length := rfl
        simp at hlen
        omega
  · intro h1 h2
    have hne : ¬(cleanWhitespace rawText = "" ∨ (cleanWhitespace rawText).length < 50) := by
      rintro (he | hlt)
      · rw [he] at h1; simp [String.length] at h1
      · omega
    rw [if_neg hne, if_neg (by omega)]
    exact ⟨rfl, rfl⟩
  · by_cases hne : cleanWhitespace rawText = "" ∨ (cleanWhitespace rawText).length < 50
    · rw [if_pos hne]; simp [String.length]
    · rw [if_neg hne]
      by_cases hbig : (cleanWhitespace rawText).length > 10000
      · rw [if_pos hbig, string_length_mk, List.length_take]; omega
      · rw [if_neg hbig]
        show (cleanWhitespace rawText).length ≤ 10000
        omega

/-- Witness for C5 at concrete inputs: a 10001-character page is truncated
to exactly 10000 characters, and a 60-character page is returned
unchanged. -/
theorem claim_C5_truncation_witness :
    (10000 < (cleanWhitespace (String.mk (List.replicate 10001 'a'))).length ∧
      (extractArticleContent "T" "u" (String.mk (List.replicate 10001 'a'))).success = true ∧
      (extractArticleContent "T" "u" (String.mk (List.replicate 10001 'a'))).text.length = 10000) ∧
    (extractArticleContent "T" "u" (String.mk (List.replicate 60 'a'))).text =
      cleanWhitespace (String.mk (List.replicate 60 'a')) := by
  have hclean1 : cleanWhitespace (String.mk (List.replicate 10001 'a')) =
      String.mk (List.replicate 10001 'a') :=
    cleanWhitespace_of_no_ws _ (replicate_a_no_ws 10001)
  have hlen1 : 10000 < (cleanWhitespace (String.mk (List.replicate 10001 'a'))).length := by
    rw [hclean1, string_length_mk, List.length_replicate]
    omega
  have hclean2 : cleanWhitespace (String.mk (List.replicate 60 'a')) =
      String.mk (List.replicate 60 'a') :=
    cleanWhitespace_of_no_ws _ (replicate_a_no_ws 60)
  have hlen2a : 50 ≤ (cleanWhitespace (String.mk (List.replicate 60 'a'))).length := by
    rw [hclean2, string_length_mk, List.length_replicate]
    omega
  have hlen2b : (cleanWhitespace (String.mk (List.replicate 60 'a'))).length ≤ 10000 := by
    rw [hclean2, string_length_mk, List.length_replicate]
    omega
  have h1 := (claim_C5_truncation "T" "u" (String.mk (List.replicate 10001 'a'))).1 hlen1
  have h2 := ((claim_C5_truncation "T" "u" (String.mk (List.replicate 60 'a'))).2.1 hlen2a hlen2b).2
  exact ⟨⟨hlen1, h1.1, h1.2.1⟩, h2⟩

/-- C9: whenever the cleaned page text has fewer than 50 characters,
extraction fails with empty text, the fixed no-content message, and the
extracted title and url carried through. -/
theorem claim_C9_no_content (title url rawText : String)
    (h : (cleanWhitespace rawText).length < 50) :
    extractArticleContent title url rawText =
      ⟨title, "", url, false, some "No content found to summarize"⟩ := by
  unfold extractArticleContent
  rw [if_pos (Or.inr h)]

/-- Witness for C9 at a concrete input: a two-character page fails with
the no-content message and keeps its title and url. -/
theorem claim_C9_no_content_witness :
    (cleanWhitespace "hi").length < 50 ∧
    extractArticleContent "My Title" "https://x" "hi" =
      ⟨"My Title", "", "https://x", false, some "No content found to summarize"⟩ :=
  ⟨by decide, claim_C9_no_content "My Title" "https://x" "hi" (by decide)⟩

end ContentScript

namespace Background

/-- C1 counterexample: a body in which `choices[0].message` exists but its
`content` field is absent does NOT produce the content-fault message; the
dereference throws, the catch-all wraps the engine message as a network
error (here the engine message is the concrete string "boom"). -/
theorem claim_C1_counterexample :
    contentOf ⟨some [⟨some ⟨none⟩⟩]⟩ = none ∧
    (generateSummary ⟨"t", "x", "u"⟩ (.ok ⟨some [⟨some ⟨none⟩⟩]⟩) "boom").success = false ∧
    (generateSummary ⟨"t", "x", "u"⟩ (.ok ⟨some [⟨some ⟨none⟩⟩]⟩) "boom").summary = "" ∧
    (generateSummary ⟨"t", "x", "u"⟩ (.ok ⟨some [⟨some ⟨none⟩⟩]⟩) "boom").error ≠
      some contentFaultMsg := by
  refine ⟨rfl, rfl, rfl, ?_⟩
  decide

/-- C1 (amended): for every 2xx body lacking `choices[0].message.content`,
`generateSummary` returns success false with an empty summary and no
exception escapes; the error is the exact content-fault string when
`choices`, `choices[0]` or `choices[0].message` is missing, but when the
message object is present and only `content` is absent, the caught
TypeError yields the network-error message instead. -/
theorem claim_C1_missing_content (c : Content) (tyErrMsg : String) (b : ApiBody)
    (h : contentOf b = none) :
    (generateSummary c (.ok b) tyErrMsg).success = false ∧
    (generateSummary c (.ok b) tyErrMsg).summary = "" ∧
    (messageOf b = none →
      (generateSummary c (.ok b) tyErrMsg).error = some contentFaultMsg) ∧
    (∀ m, messageOf b = some m →
      (generateSummary c (.ok b) tyErrMsg).error = some (networkErrorMsg tyErrMsg)) := by
  show (handleCompletionBody b tyErrMsg).success = false ∧
    (handleCompletionBody b tyErrMsg).summary = "" ∧
    (messageOf b = none → (handleCompletionBody b tyErrMsg).error = some contentFaultMsg) ∧
    (∀ m, messageOf b = some m →
      (handleCompletionBody b tyErrMsg).error = some (networkErrorMsg tyErrMsg))
  unfold handleCompletionBody
  cases hm : messageOf b with
  | none => simp
  | some m =>
    cases hc : m.content with
    | none => simp [hc]
    | some s =>
      exfalso
      unfold contentOf at h
      rw [hm] at h
      simp [hc] at h

/-- Witness for C1 at a concrete input: an empty `choices` array yields
the content-fault message with success false. -/
theorem claim_C1_missing_content_witness :
    contentOf ⟨some []⟩ = none ∧
    (generateSummary ⟨"t", "x", "u"⟩ (.ok ⟨some []⟩) "e").success = false ∧
    (generateSummary ⟨"t", "x", "u"⟩ (.ok ⟨some []⟩) "e").error = some contentFaultMsg := by
  have h := claim_C1_missing_content ⟨"t", "x", "u"⟩ "e" ⟨some []⟩ rfl
  exact ⟨rfl, h.1, h.2.2.1 rfl⟩

/-- C2 counterexample: 501 lies in the range 500 to 599 but is mapped to
the generic message, not the fixed service-unavailable message, because
the switch lists only 500, 502 and 503. -/
theorem claim_C2_counterexample :
    (500 ≤ 501 ∧ 501 ≤ 599) ∧
    (handleApiError 501 ⟨none⟩).error = some genericErrorMsg ∧
    genericErrorMsg ≠ serviceUnavailableMsg := by
  refine ⟨⟨by omega, by omega⟩, rfl, ?_⟩
  decide

/-- C2 (amended): `handleApiError` always returns success false with an
empty summary; 401 maps to the invalid-key message, 429 to the
rate-limited message, and exactly the statuses 500, 502 and 503 map to the
service-unavailable message; every other status (including 501 and 504 to
599) returns the provider error message when it is present and non-empty,
and the generic message when it is absent or empty (the JS falsy
fallback). -/
theorem claim_C2_status_mapping (status : Nat) (d : ErrorData) :
    (handleApiError status d).success = false ∧
    (handleApiError status d).summary = "" ∧
    (status = 401 → (handleApiError status d).error = some invalidKeyMsg) ∧
    (status = 429 → (handleApiError status d).error = some rateLimitedMsg) ∧
    ((status = 500 ∨ status = 502 ∨ status = 503) →
      (handleApiError status d).error = some serviceUnavailableMsg) ∧
    (status ≠ 401 → status ≠ 429 → status ≠ 500 → status ≠ 502 → status ≠ 503 →
      (∀ m, d.errorMessage = some m → m ≠ "" →
        (handleApiError status d).error = some m) ∧
      ((d.errorMessage = none ∨ d.errorMessage = some "") →
        (handleApiError status d).error = some genericErrorMsg)) := by
  refine ⟨rfl, rfl, ?_, ?_, ?_, ?_⟩
  · rintro rfl; rfl
  · rintro rfl; rfl
  · rintro (rfl | rfl | rfl) <;> rfl
  · intro h1 h2 h3 h4 h5
    have hdef : (handleApiError status d).error = some (jsOr d.errorMessage genericErrorMsg) := by
      unfold handleApiError
      rw [if_neg h1, if_neg h2,
          if_neg (by rintro (rfl | rfl | rfl); exacts [h3 rfl, h4 rfl, h5 rfl])]
    constructor
    · intro m hm hne
      rw [hdef, hm]
      simp [jsOr, hne]
    · rintro (hm | hm) <;> rw [hdef, hm] <;> rfl

/-- Witness for C2 at concrete inputs: 502 yields the service-unavailable
message, 404 with a non-empty provider message yields that provider
message, and 404 with an empty provider message falls back to the generic
message. -/
theorem claim_C2_status_mapping_witness :
    (handleApiError 502 ⟨none⟩).error = some serviceUnavailableMsg ∧
    (handleApiError 404 ⟨some "model not found"⟩).error = some "model not found" ∧
    (handleApiError 404 ⟨some ""⟩).error = some genericErrorMsg := by
  refine ⟨?_, ?_, ?_⟩
  · exact (claim_C2_status_mapping 502 ⟨none⟩).2.2.2.2.1 (Or.inr (Or.inl rfl))
  · exact ((claim_C2_status_mapping 404 ⟨some "model not found"⟩).2.2.2.2.2
      (by omega) (by omega) (by omega) (by omega) (by omega)).1
      "model not found" rfl (by decide)
  · exact ((claim_C2_status_mapping 404 ⟨some ""⟩).2.2.2.2.2
      (by omega) (by omega) (by omega) (by omega) (by omega)).2 (Or.inr rfl)

end Background

namespace Background

/-- C3 counterexample: in the selection scope with no API key configured
and an empty selection, the reported failure is the no-text-selected
message, not the not-configured message, and the selection is read while
the configuration is not: the configuration check does not precede the
selection-reading step. -/
theorem claim_C3_counterexample :
    getApiKeyVal ⟨none, none⟩ = none ∧
    (selectionFlow ⟨none, none⟩ "" none "https://x" .abortTimeout "e").1.error =
      some noTextSelectedMsg ∧
    noTextSelectedMsg ≠ notConfiguredMsg ∧
    (selectionFlow ⟨none, none⟩ "" none "https://x" .abortTimeout "e").2 =
      [Step.readSelection] := by
  refine ⟨rfl, rfl, ?_, rfl⟩
  decide

/-- C3 (amended): with no API key configured, the page scope fails at once
with the not-configured error, before extraction and with no network
call; in the selection scope the selection is read first, so an empty
selection reports the no-text-selected error instead, while a non-empty
selection reports the not-configured error; in neither scope is a network
call attempted. -/
theorem claim_C3_config_check (cfg : Config) (ext : ContentScript.ExtractedContent)
    (sel : String) (tabTitle : Option String) (tabUrl : String)
    (f : FetchOutcome) (e : String) (hkey : getApiKeyVal cfg = none) :
    handleSummarizeRequest cfg ext f e =
      (⟨"", "", "", false, some notConfiguredMsg⟩, [Step.readConfig]) ∧
    (jsTrimStr sel ≠ "" →
      selectionFlow cfg sel tabTitle tabUrl f e =
        (⟨"", pageTitleOf tabTitle, tabUrl, false, some notConfiguredMsg⟩,
         [Step.readSelection, Step.readConfig])) ∧
    (jsTrimStr sel = "" →
      selectionFlow cfg sel tabTitle tabUrl f e =
        (⟨"", "", "", false, some noTextSelectedMsg⟩, [Step.readSelection])) ∧
    Step.networkCall ∉ (handleSummarizeRequest cfg ext f e).2 ∧
    Step.networkCall ∉ (selectionFlow cfg sel tabTitle tabUrl f e).2 := by
  have h1 : handleSummarizeRequest cfg ext f e =
      (⟨"", "", "", false, some notConfiguredMsg⟩, [Step.readConfig]) := by
    unfold handleSummarizeRequest
    rw [hkey]
  have h2 : jsTrimStr sel ≠ "" →
      selectionFlow cfg sel tabTitle tabUrl f e =
        (⟨"", pageTitleOf tabTitle, tabUrl, false, some notConfiguredMsg⟩,
         [Step.readSelection, Step.readConfig]) := by
    intro hsel
    unfold selectionFlow summarizeSelectedText
    rw [if_neg hsel, hkey]
  have h3 : jsTrimStr sel = "" →
      selectionFlow cfg sel tabTitle tabUrl f e =
        (⟨"", "", "", false, some noTextSelectedMsg⟩, [Step.readSelection]) := by
    intro hsel
    unfold selectionFlow
    rw [if_pos hsel]
  refine ⟨h1, h2, h3, ?_, ?_⟩
  · rw [h1]; decide
  · by_cases hsel : jsTrimStr sel = ""
    · rw [h3 hsel]; decide
    · rw [h2 hsel]
      show Step.networkCall ∉ [Step.readSelection, Step.readConfig]
      decide

/-- Witness for C3 at concrete inputs: with an unset key, the page scope
and the non-empty-selection scope both fail with the not-configured
message. -/
theorem claim_C3_config_check_witness :
    handleSummarizeRequest ⟨none, none⟩ ⟨"t", "x", "u", true, none⟩ .abortTimeout "e" =
      (⟨"", "", "", false, some notConfiguredMsg⟩, [Step.readConfig]) ∧
    selectionFlow ⟨none, none⟩ "hello" none "https://x" .abortTimeout "e" =
      (⟨"", pageTitleOf none, "https://x", false, some notConfiguredMsg⟩,
       [Step.readSelection, Step.readConfig]) := by
  have h := claim_C3_config_check ⟨none, none⟩ ⟨"t", "x", "u", true, none⟩
    "hello" none "https://x" .abortTimeout "e" rfl
  exact ⟨h.1, h.2.1 (by decide)⟩

lemma resultOk_handleCompletionBody (b : ApiBody) (e : String) :
    resultOk (handleCompletionBody b e).summary (handleCompletionBody b e).success
      (handleCompletionBody b e).error := by
  unfold handleCompletionBody
  cases hm : messageOf b with
  | none => exact Or.inr ⟨rfl, rfl, rfl⟩
  | some m =>
    cases hc : m.content with
    | none => simp [hc]; exact Or.inr ⟨rfl, rfl, rfl⟩
    | some s =>
      simp only [hc]
      by_cases hs : jsTrimStr s = ""
      · simp only [hs, if_pos]
        exact Or.inr ⟨rfl, rfl, rfl⟩
      · rw [if_neg hs]
        exact Or.inl ⟨rfl, rfl, hs⟩

lemma resultOk_generateSummary (c : Content) (f : FetchOutcome) (e : String) :
    resultOk (generateSummary c f e).summary (generateSummary c f e).success
      (generateSummary c f e).error := by
  cases f with
  | httpError st d => exact Or.inr ⟨rfl, rfl, rfl⟩
  | abortTimeout => exact Or.inr ⟨rfl, rfl, rfl⟩
  | networkFailure m => exact Or.inr ⟨rfl, rfl, rfl⟩
  | ok b => exact resultOk_handleCompletionBody b e

/-- C6: every result produced across the Summarizer interface satisfies
the invariant: success results carry a non-empty summary and no error
string, failure results carry an error string and an empty summary; in
particular success is false exactly when an error is set and the summary
is empty. -/
theorem claim_C6_invariant (c : Content) (f : FetchOutcome) (e : String)
    (cfg : Config) (ext : ContentScript.ExtractedContent) (sel : String)
    (tabTitle : Option String) (tabUrl : String) (status : Nat) (d : ErrorData)
    (m : String) :
    resultOk (generateSummary c f e).summary (generateSummary c f e).success
      (generateSummary c f e).error ∧
    resultOk (handleApiError status d).summary (handleApiError status d).success
      (handleApiError status d).error ∧
    resultOk (handleSummarizeRequest cfg ext f e).1.summary
      (handleSummarizeRequest cfg ext f e).1.success
      (handleSummarizeRequest cfg ext f e).1.error ∧
    resultOk (selectionFlow cfg sel tabTitle tabUrl f e).1.summary
      (selectionFlow cfg sel tabTitle tabUrl f e).1.success
      (selectionFlow cfg sel tabTitle tabUrl f e).1.error ∧
    resultOk noActiveTabResult.summary noActiveTabResult.success noActiveTabResult.error ∧
    resultOk (selectionFailedResult m).summary (selectionFailedResult m).success
      (selectionFailedResult m).error := by
  refine ⟨resultOk_generateSummary c f e, Or.inr ⟨rfl, rfl, rfl⟩, ?_, ?_,
    Or.inr ⟨rfl, rfl, rfl⟩, Or.inr ⟨rfl, rfl, rfl⟩⟩
  · unfold handleSummarizeRequest
    cases hk : getApiKeyVal cfg with
    | none => exact Or.inr ⟨rfl, rfl, rfl⟩
    | some k =>
      by_cases hs : ext.success
      · rw [if_pos hs]
        exact resultOk_generateSummary ⟨ext.title, ext.text, ext.url⟩ f e
      · rw [if_neg hs]
        exact Or.inr ⟨rfl, rfl, rfl⟩
  · unfold selectionFlow
    by_cases hsel : jsTrimStr sel = ""
    · rw [if_pos hsel]
      exact Or.inr ⟨rfl, rfl, rfl⟩
    · rw [if_neg hsel]
      unfold summarizeSelectedText
      cases hk : getApiKeyVal cfg with
      | none => exact Or.inr ⟨rfl, rfl, rfl⟩
      | some k =>
        exact resultOk_generateSummary
          ⟨pageTitleOf tabTitle, String.mk (sel.data.take 10000), ""⟩ f e

/-- C8: the outgoing user message is exactly the string
"Title: t(newline)(newline)Content:(newline)body" where t is the title
with every character of code point above 0x7F removed (in order) and the
body is the content text unmodified; every character of the title segment
is ASCII. -/
theorem claim_C8_user_message (c : Content) :
    userMessage c =
      "Title: " ++ String.mk (c.title.data.filter (fun ch => ch.toNat ≤ 0x7F)) ++
        "\n\nContent:\n" ++ c.text ∧
    (∀ ch ∈ (sanitizedTitle c).data, ch.toNat ≤ 0x7F) := by
  constructor
  · rfl
  · intro ch hch
    unfold sanitizedTitle at hch
    rw [string_data_mk] at hch
    simpa using (List.mem_filter.mp hch).2

/-- Witness for C8 at the concrete input of the spec: for the title
"Café news!" the title segment loses exactly the non-ASCII character
while the body is unchanged. -/
theorem claim_C8_user_message_witness :
    userMessage ⟨"Café news!", "Le corps é reste.", ""⟩ =
      "Title: Caf news!\n\nContent:\nLe corps é reste." := by
  have h := (claim_C8_user_message ⟨"Café news!", "Le corps é reste.", ""⟩).1
  rw [h]
  decide

/-- C10: for every provider string other than "openai" and "openrouter",
the endpoint and model fall back to the openai defaults, and the two
extra identification headers are attached exactly when the provider
string is "openrouter". -/
theorem claim_C10_provider_fallback (p : String)
    (h1 : p ≠ "openai") (h2 : p ≠ "openrouter") :
    apiUrl p = "https://api.openai.com/v1/chat/completions" ∧
    modelName p = "gpt-3.5-turbo" ∧
    (∀ q key : String,
      (("HTTP-Referer", "https://github.com/ai-article-summarizer") ∈ requestHeaders key q ∧
       ("X-Title", "AI-Article-Summarizer") ∈ requestHeaders key q) ↔ q = "openrouter") := by
  refine ⟨?_, ?_, ?_⟩
  · unfold apiUrl API_ENDPOINTS
    rw [if_neg h1, if_neg h2]
    rfl
  · unfold modelName DEFAULT_MODELS
    rw [if_neg h1, if_neg h2]
    rfl
  · intro q key
    unfold requestHeaders
    by_cases hq : q = "openrouter"
    · subst hq
      simp
    · rw [if_neg hq]
      simp only [List.append_nil]
      constructor
      · rintro ⟨hmem, -⟩
        exfalso
        rcases List.mem_cons.mp hmem with hx | hx
        · have hfst : ("HTTP-Referer" : String) = "Content-Type" := congrArg Prod.fst hx
          exact absurd hfst (by decide)
        · rcases List.mem_cons.mp hx with hy | hy
          · have hfst : ("HTTP-Referer" : String) = "Authorization" := congrArg Prod.fst hy
            exact absurd hfst (by decide)
          · simp at hy
      · intro hx
        exact absurd hx hq

/-- Witness for C10 at a concrete input: the unknown provider "mistral"
falls back to the openai endpoint and model, and with the key "k" it gets
no identification headers while "openrouter" does. -/
theorem claim_C10_provider_fallback_witness :
    apiUrl "mistral" = "https://api.openai.com/v1/chat/completions" ∧
    modelName "mistral" = "gpt-3.5-turbo" ∧
    ¬(("HTTP-Referer", "https://github.com/ai-article-summarizer") ∈ requestHeaders "k" "mistral" ∧
      ("X-Title", "AI-Article-Summarizer") ∈ requestHeaders "k" "mistral") ∧
    (("HTTP-Referer", "https://github.com/ai-article-summarizer") ∈ requestHeaders "k" "openrouter" ∧
     ("X-Title", "AI-Article-Summarizer") ∈ requestHeaders "k" "openrouter") := by
  have h := claim_C10_provider_fallback "mistral" (by decide) (by decide)
  refine ⟨h.1, h.2.1, ?_, ?_⟩
  · intro hmem
    exact absurd ((h.2.2 "mistral" "k").mp hmem) (by decide)
  · exact (h.2.2 "openrouter" "k").mpr rfl

end Background

end Summarizer
